import Mathlib

/-!
Verification of the bank ledger subsystem of `src/pr5/bank_system.py`.

Python `Decimal` values are modelled exactly: a decimal number is a scaled
integer `Dec` (mantissa over a power of ten), and every monetary value that
the code keeps quantized to two fractional digits is stored as an integer
number of cents (`Int`).  `ROUND_HALF_UP` is `roundHalfUpDiv` (round to
nearest, ties away from zero).  Python exceptions become an `Err` value; a
mutating operation returns `Except (Err × state) (result × state)`, where the
error side carries the state of the touched objects at the moment the
exception is raised, so that claims about mutation-before-failure are
expressible.  A `float` argument is represented by the exact decimal value of
its shortest representation, which is what `Decimal(str(value))` reads.
-/

namespace PR5Bank

/-- A Python `Decimal`: mantissa `m` over `10 ^ e` (so `e` is the number of
stored fractional digits, as in `Decimal("1.005")` where `m = 1005`, `e = 3`). -/
structure Dec where
  m : Int
  e : Nat
  deriving DecidableEq, Repr

def pow10 (e : Nat) : Int := (10 : Int) ^ e

/-- Round `p / q` (with `q > 0`) to the nearest integer, ties away from zero:
Python `ROUND_HALF_UP`. -/
def roundHalfUpDiv (p q : Int) : Int :=
  if 0 ≤ p then (2 * p + q) / (2 * q) else -((2 * (-p) + q) / (2 * q))

/-- Quantize a decimal to two fractional digits with `ROUND_HALF_UP`,
returning the number of cents: `d.quantize(Decimal("0.01"), ROUND_HALF_UP)`. -/
def Dec.toCents (d : Dec) : Int := roundHalfUpDiv (d.m * 100) (pow10 d.e)

/-- Exact product of two decimals, as Python computes `a * b`. -/
def Dec.mul (a b : Dec) : Dec := ⟨a.m * b.m, a.e + b.e⟩

/-- A Python runtime value passed as an `amount` argument. -/
inductive PyVal where
  | pybool (b : Bool)
  | pyint (n : Int)
  | pyfloat (d : Dec)
  | pydec (d : Dec)
  | pystr (s : String)
  deriving DecidableEq, Repr

/-- A raised Python exception: `TypeError`, `ValueError` or `PermissionError`,
with its message. -/
inductive Err where
  | typeError (msg : String)
  | valueError (msg : String)
  | permissionError (msg : String)
  deriving DecidableEq, Repr

def SUPPORTED_CURRENCIES : List String := ["RUB", "USD", "EUR", "GBP"]

/-- The helper `_to_decimal_money` (bank_system.py lines 11-22): reject
`bool` and non-numbers, accept `int` / `float` / `Decimal`, quantize to two
fractional digits with `ROUND_HALF_UP`.  Result in cents. -/
def to_decimal_money : PyVal → Except Err Int
  | .pybool _ => .error (.typeError "amount должен быть числом")
  | .pyint n => .ok (n * 100)
  | .pyfloat d => .ok d.toCents
  | .pydec d => .ok d.toCents
  | .pystr _ => .error (.typeError "amount должен быть числом")

/-- A currency converter: its directed rate table (bank_system.py lines 28-36). -/
structure CurrencyConverter where
  rates : List ((String × String) × Dec)
  deriving DecidableEq, Repr

/-- The built-in rate table used when no table is supplied. -/
def default_rates : List ((String × String) × Dec) :=
  [ (("RUB", "USD"), ⟨1, 2⟩),
    (("USD", "RUB"), ⟨100, 0⟩),
    (("RUB", "EUR"), ⟨90909091, 10⟩),
    (("EUR", "RUB"), ⟨110, 0⟩),
    (("RUB", "GBP"), ⟨76923077, 10⟩),
    (("GBP", "RUB"), ⟨130, 0⟩) ]

def defaultConverter : CurrencyConverter := ⟨default_rates⟩

/-- `CurrencyConverter.convert` (bank_system.py lines 38-56): check both
currency codes, then that the amount is a `Decimal`, quantize it, return it
unchanged when the codes coincide, otherwise look up the ordered pair in the
rate table and return the quantized product `amount * rate`. -/
def CurrencyConverter.convert (cv : CurrencyConverter) (amount : PyVal)
    (from_currency to_currency : String) : Except Err Int :=
  if from_currency ∈ SUPPORTED_CURRENCIES then
    if to_currency ∈ SUPPORTED_CURRENCIES then
      match amount with
      | .pydec d =>
        let q := d.toCents
        if from_currency = to_currency then .ok q
        else
          match List.lookup (from_currency, to_currency) cv.rates with
          | some r => .ok (Dec.toCents (Dec.mul ⟨q, 2⟩ r))
          | none => .error (.valueError
              ("Неподдерживаемая конвертация: " ++ from_currency ++ "->" ++ to_currency))
      | _ => .error (.typeError "amount должен быть Decimal")
    else .error (.valueError "Неподдерживаемая валюта")
  else .error (.valueError "Неподдерживаемая валюта")

/-- `BankAccount` state (bank_system.py lines 59-76); `balance` and
`overdraft_limit` are in cents. -/
structure BankAccount where
  owner : String
  balance : Int
  currency : String
  transactions : List String
  is_blocked : Bool
  overdraft_limit : Int
  deriving DecidableEq, Repr

/-- `BankAccount.MAX_DEPOSIT = Decimal("1000000.00")`, in cents. -/
def MAX_DEPOSIT : Int := 100000000

/-- Render a cents value the way Python prints a `Decimal` with two
fractional digits, e.g. `-5` cents prints as `-0.05`. -/
def fmtMoney (c : Int) : String :=
  let frac := c.natAbs % 100
  (if c < 0 then "-" else "") ++ toString (c.natAbs / 100) ++ "." ++
    (if frac < 10 then "0" ++ toString frac else toString frac)

/-- `BankAccount.deposit` (bank_system.py lines 78-88).  The error carries
the account state at the moment the exception is raised. -/
def BankAccount.deposit (a : BankAccount) (amount : PyVal) :
    Except (Err × BankAccount) (Int × BankAccount) :=
  match to_decimal_money amount with
  | .error e => .error (e, a)
  | .ok amount_d =>
    if amount_d ≤ 0 then .error (.valueError "Депозит должен быть позитивным", a)
    else if MAX_DEPOSIT < amount_d then .error (.valueError "Депозит слишком велик", a)
    else
      let balance1 := Dec.toCents ⟨a.balance + amount_d, 2⟩
      let a1 := { a with
        balance := balance1,
        transactions := a.transactions ++ ["+" ++ fmtMoney amount_d ++ " " ++ a.currency] }
      .ok (balance1, a1)

/-- `BankAccount.withdraw` (bank_system.py lines 90-107): blocked check,
normalization, positivity, a 1% fee `(amount * Decimal("0.01")).quantize`,
overdraft check on `amount + fee`, then debit and log. -/
def BankAccount.withdraw (a : BankAccount) (amount : PyVal) :
    Except (Err × BankAccount) (Int × BankAccount) :=
  if a.is_blocked then .error (.permissionError "Аккаунт заблокирован", a)
  else
    match to_decimal_money amount with
    | .error e => .error (e, a)
    | .ok amount_d =>
      if amount_d ≤ 0 then .error (.valueError "Снятие должно быть позитивным", a)
      else
        let fee := Dec.toCents (Dec.mul ⟨amount_d, 2⟩ ⟨1, 2⟩)
        let total := amount_d + fee
        if a.balance - total < -a.overdraft_limit then
          .error (.valueError "Недостаток средств", a)
        else
          let a1 := { a with
            balance := Dec.toCents ⟨a.balance - total, 2⟩,
            transactions := a.transactions ++
              ["-" ++ fmtMoney amount_d ++ " (комиссия: " ++ fmtMoney fee ++ ") " ++ a.currency] }
          .ok (amount_d, a1)

/-- `BankAccount.get_statement` (bank_system.py lines 120-128) as a record
snapshot; the aliasing behaviour of the transaction list is modelled
separately with `LogStore`. -/
structure Statement where
  owner : String
  currency : String
  balance : Int
  transactions : List String
  is_blocked : Bool
  deriving DecidableEq, Repr

def BankAccount.get_statement (a : BankAccount) : Statement :=
  ⟨a.owner, a.currency, a.balance, a.transactions, a.is_blocked⟩

/-- `BankAccount.transfer` (bank_system.py lines 130-158): blocked check,
target check (`none` models Python `None` / a non-account), normalization,
positivity, funds check on the raw amount, conversion, then both debits and
both log lines.  The error carries both account states at raise time, so a
conversion failure provably leaves both accounts untouched. -/
def BankAccount.transfer (a : BankAccount) (target : Option BankAccount)
    (amount : PyVal) (converter : Option CurrencyConverter) :
    Except (Err × BankAccount × Option BankAccount)
      (Int × BankAccount × BankAccount) :=
  if a.is_blocked then .error (.permissionError "Аккаунт заблокирован", a, target)
  else
    match target with
    | none => .error (.typeError "target_account должен быть BankAccount", a, none)
    | some t =>
      match to_decimal_money amount with
      | .error e => .error (e, a, some t)
      | .ok amount_d =>
        if amount_d ≤ 0 then
          .error (.valueError "Количество передаваемых денег должно быть позитивным", a, some t)
        else
          let conv := converter.getD defaultConverter
          if a.balance - amount_d < -a.overdraft_limit then
            .error (.valueError "Недостаток средств", a, some t)
          else
            match conv.convert (.pydec ⟨amount_d, 2⟩) a.currency t.currency with
            | .error e => .error (e, a, some t)
            | .ok credited =>
              let a1 := { a with
                balance := Dec.toCents ⟨a.balance - amount_d, 2⟩,
                transactions := a.transactions ++
                  ["Передача -" ++ fmtMoney amount_d ++ " " ++ a.currency ++ " в " ++ t.owner] }
              let t1 := { t with
                balance := Dec.toCents ⟨t.balance + credited, 2⟩,
                transactions := t.transactions ++
                  ["Передача +" ++ fmtMoney credited ++ " " ++ t.currency ++ " от " ++ a.owner] }
              .ok (credited, a1, t1)

/-- `Bank` state (bank_system.py lines 161-175): the accounts dict in
insertion order. -/
structure Bank where
  name : String
  accounts : List (String × BankAccount)
  deriving DecidableEq, Repr

/-- The account loop of `Bank.total_deposits` (bank_system.py lines 182-188):
skip blocked accounts, convert each remaining balance, accumulate, and
quantize the final total. -/
def total_deposits_go (conv : CurrencyConverter) (currency : String) :
    List (String × BankAccount) → Int → Except Err Int
  | [], total => .ok (Dec.toCents ⟨total, 2⟩)
  | (_, acc) :: rest, total =>
    if acc.is_blocked then total_deposits_go conv currency rest total
    else
      match conv.convert (.pydec ⟨acc.balance, 2⟩) acc.currency currency with
      | .error e => .error e
      | .ok v => total_deposits_go conv currency rest (total + v)

/-- `Bank.total_deposits` (bank_system.py lines 177-188). -/
def Bank.total_deposits (b : Bank) (currency : String)
    (converter : Option CurrencyConverter) : Except Err Int :=
  if currency ∈ SUPPORTED_CURRENCIES then
    total_deposits_go (converter.getD defaultConverter) currency b.accounts 0
  else .error (.valueError "Неподдерживаемая валюта")

/-- Modelled from the spec: `totalDeposits` "sums, over all unblocked
accounts, convert(balance, accountCurrency, reportingCurrency)".  Spec-side
summation used to state claim C8 as a refinement. -/
def sum_converted (conv : CurrencyConverter) (currency : String) :
    List (String × BankAccount) → Except Err Int
  | [] => .ok 0
  | (_, acc) :: rest =>
    match conv.convert (.pydec ⟨acc.balance, 2⟩) acc.currency currency with
    | .error e => .error e
    | .ok v =>
      match sum_converted conv currency rest with
      | .error e => .error e
      | .ok s => .ok (v + s)

/-- Modelled from the spec: fail on an unsupported reporting currency,
otherwise sum the converted balances of the unblocked accounts. -/
def total_deposits_spec (b : Bank) (currency : String)
    (conv : CurrencyConverter) : Except Err Int :=
  if currency ∈ SUPPORTED_CURRENCIES then
    sum_converted conv currency (b.accounts.filter (fun p => !p.2.is_blocked))
  else .error (.valueError "Неподдерживаемая валюта")

/-- A store of Python list objects: cell `r` holds the list it currently
contains.  Models reference semantics of `self.transactions`. -/
structure LogStore where
  cells : List (List String)
  deriving DecidableEq, Repr

def LogStore.read (h : LogStore) (r : Nat) : List String := h.cells.getD r []

def LogStore.write (h : LogStore) (r : Nat) (xs : List String) : LogStore :=
  ⟨h.cells.set r xs⟩

/-- The `"transactions": list(self.transactions)` line of `get_statement`
(bank_system.py line 126): allocate a fresh cell holding a copy of the
account's log and hand out a reference to the fresh cell. -/
def get_statement_transactions (h : LogStore) (r : Nat) : LogStore × Nat :=
  (⟨h.cells ++ [h.read r]⟩, h.cells.length)

deriving instance DecidableEq for Except

/-! Arithmetic facts about half-up rounding and quantization. -/

lemma pow10_pos (e : Nat) : 0 < pow10 e := pow_pos (by norm_num) e

lemma roundHalfUpDiv_mul_left (k p q : Int) (hk : 0 < k) :
    roundHalfUpDiv (k * p) (k * q) = roundHalfUpDiv p q := by
  unfold roundHalfUpDiv
  have hsgn : 0 ≤ k * p ↔ 0 ≤ p := mul_nonneg_iff_of_pos_left hk
  by_cases hp : 0 ≤ p
  · rw [if_pos (hsgn.mpr hp), if_pos hp]
    have h1 : 2 * (k * p) + k * q = k * (2 * p + q) := by ring
    have h2 : 2 * (k * q) = k * (2 * q) := by ring
    rw [h1, h2, Int.mul_ediv_mul_of_pos _ _ hk]
  · rw [if_neg (fun h => hp (hsgn.mp h)), if_neg hp]
    have h1 : 2 * -(k * p) + k * q = k * (2 * -p + q) := by ring
    have h2 : 2 * (k * q) = k * (2 * q) := by ring
    rw [h1, h2, Int.mul_ediv_mul_of_pos _ _ hk]

lemma roundHalfUpDiv_neg (p q : Int) (hq : 0 < q) :
    roundHalfUpDiv (-p) q = -roundHalfUpDiv p q := by
  rcases lt_trichotomy p 0 with h | h | h
  · rw [roundHalfUpDiv, roundHalfUpDiv, if_pos (by omega : (0:Int) ≤ -p),
      if_neg (by omega : ¬(0:Int) ≤ p), neg_neg]
  · subst h
    have hz : q / (2 * q) = 0 :=
      Int.ediv_eq_zero_of_lt hq.le (by omega)
    rw [neg_zero]
    unfold roundHalfUpDiv
    rw [if_pos le_rfl]
    simp only [mul_zero, zero_add, hz, neg_zero]
  · rw [roundHalfUpDiv, roundHalfUpDiv, if_neg (by omega : ¬(0:Int) ≤ -p),
      if_pos (by omega : (0:Int) ≤ p), neg_neg]

/-- Half-up rounding is within half a unit: for a nonnegative numerator the
result `c` satisfies `2*p - q < 2*q*c ≤ 2*p + q`, so `c` is the nearest
integer to `p / q` and an exact tie rounds upward. -/
lemma roundHalfUpDiv_bounds (p q : Int) (hq : 0 < q) (hp : 0 ≤ p) :
    2 * p - q < 2 * q * roundHalfUpDiv p q ∧
      2 * q * roundHalfUpDiv p q ≤ 2 * p + q := by
  rw [roundHalfUpDiv, if_pos hp]
  have h2q : 0 < 2 * q := by omega
  have hdm := Int.ediv_add_emod (2 * p + q) (2 * q)
  have hm0 : 0 ≤ (2 * p + q) % (2 * q) := Int.emod_nonneg _ (by omega)
  have hm1 : (2 * p + q) % (2 * q) < 2 * q := Int.emod_lt_of_pos _ h2q
  constructor <;> omega

/-- Quantizing a value that is already in cents is the identity. -/
lemma toCents_money (c : Int) : Dec.toCents ⟨c, 2⟩ = c := by
  have h : pow10 2 = 100 := by norm_num [pow10]
  show roundHalfUpDiv (c * 100) (pow10 2) = c
  rw [h]
  unfold roundHalfUpDiv
  split <;> omega

/-- The 1% withdrawal fee `(amount * Decimal("0.01")).quantize(...)` in
cents is `roundHalfUpDiv c 100`. -/
lemma fee_eq (c : Int) :
    Dec.toCents (Dec.mul ⟨c, 2⟩ ⟨1, 2⟩) = roundHalfUpDiv c 100 := by
  have h : pow10 (2 + 2) = 10000 := by norm_num [pow10]
  show roundHalfUpDiv (c * 1 * 100) (pow10 (2 + 2)) = roundHalfUpDiv c 100
  rw [h]
  unfold roundHalfUpDiv
  split <;> split <;> omega

/-- Claim C3: for every unblocked account and every positive normalized
amount `c` (in cents), `withdraw` computes the fee as 1% of `c` rounded
half-up, fails with `ValueError` (InvalidArgument) when
`balance - (c + fee) < -overdraft_limit`, and otherwise debits the balance
by `c + fee`, appends one log entry, and returns the pre-fee amount `c`. -/
theorem c3_withdraw_rules (a : BankAccount) (amount : PyVal) (c : Int)
    (hb : a.is_blocked = false) (hn : to_decimal_money amount = .ok c)
    (hc : 0 < c) :
    (a.balance - (c + roundHalfUpDiv c 100) < -a.overdraft_limit →
      a.withdraw amount = .error (.valueError "Недостаток средств", a)) ∧
    (¬(a.balance - (c + roundHalfUpDiv c 100) < -a.overdraft_limit) →
      a.withdraw amount = .ok (c, { a with
        balance := a.balance - (c + roundHalfUpDiv c 100),
        transactions := a.transactions ++
          ["-" ++ fmtMoney c ++ " (комиссия: " ++
            fmtMoney (roundHalfUpDiv c 100) ++ ") " ++ a.currency] })) := by
  unfold BankAccount.withdraw
  rw [hb, hn]
  simp only [Bool.false_eq_true, if_false, fee_eq, toCents_money]
  constructor
  · intro h
    rw [if_neg (by omega), if_pos h]
  · intro h
    rw [if_neg (by omega), if_neg h]

/-- Claim C3 witness: on a 100.00 RUB account, `withdraw(10)` returns 10.00
and leaves the balance at 89.90 with one appended log entry. -/
theorem c3_withdraw_witness :
    (⟨"Alice", 10000, "RUB", [], false, 0⟩ : BankAccount).withdraw (.pyint 10) =
      .ok (1000, ⟨"Alice", 8990, "RUB", ["-10.00 (комиссия: 0.10) RUB"], false, 0⟩) := by
  rw [(c3_withdraw_rules ⟨"Alice", 10000, "RUB", [], false, 0⟩ (.pyint 10) 1000
    rfl rfl (by norm_num)).2 (by decide)]
  decide

/-- Claim C4: normalization accepts int, float and Decimal inputs and
quantizes the exact decimal value to two fractional digits; the rounding is
to the nearest cent with ties away from zero (half-up), so that
`normalize(1.005) = 1.01`; every boolean input raises `TypeError`. -/
theorem c4_normalize_half_up :
    (∀ d : Dec, to_decimal_money (.pydec d) = .ok d.toCents ∧
      to_decimal_money (.pyfloat d) = .ok d.toCents) ∧
    (∀ n : Int, to_decimal_money (.pyint n) = .ok (n * 100) ∧
      Dec.toCents ⟨n, 0⟩ = n * 100) ∧
    (∀ d : Dec, 0 ≤ d.m →
      2 * (d.m * 100) - pow10 d.e < 2 * pow10 d.e * d.toCents ∧
      2 * pow10 d.e * d.toCents ≤ 2 * (d.m * 100) + pow10 d.e) ∧
    (∀ d : Dec, Dec.toCents ⟨-d.m, d.e⟩ = -d.toCents) ∧
    to_decimal_money (.pydec ⟨1005, 3⟩) = .ok 101 ∧
    (∀ b : Bool,
      to_decimal_money (.pybool b) = .error (.typeError "amount должен быть числом")) := by
  refine ⟨fun d => ⟨rfl, rfl⟩, fun n => ⟨rfl, ?_⟩, fun d hm => ?_, fun d => ?_, rfl,
    fun b => rfl⟩
  · have h : pow10 0 = 1 := by norm_num [pow10]
    show roundHalfUpDiv (n * 100) (pow10 0) = n * 100
    rw [h]
    unfold roundHalfUpDiv
    split <;> omega
  · exact roundHalfUpDiv_bounds (d.m * 100) (pow10 d.e) (pow10_pos d.e)
      (by positivity)
  · rw [Dec.toCents, Dec.toCents, neg_mul,
      roundHalfUpDiv_neg (d.m * 100) (pow10 d.e) (pow10_pos d.e)]

/-- Claim C4 witness: the nearest-with-ties-up bounds instantiated at the
tie 1.005, whose quantization is 1.01. -/
theorem c4_normalize_witness :
    2 * ((1005 : Int) * 100) - pow10 3 < 2 * pow10 3 * Dec.toCents ⟨1005, 3⟩ ∧
      2 * pow10 3 * Dec.toCents ⟨1005, 3⟩ ≤ 2 * ((1005 : Int) * 100) + pow10 3 :=
  c4_normalize_half_up.2.2.1 ⟨1005, 3⟩ (by norm_num)

/-- Claim C7: `deposit` performs no blocked-account check; for every account
(blocked or not), once the amount normalizes to `c` cents it fails with
`ValueError` when `c ≤ 0` or when `c` exceeds the 1,000,000.00 ceiling, and
otherwise adds `c` to the balance, appends one signed log entry, and returns
the new balance. -/
theorem c7_deposit_rules (a : BankAccount) (amount : PyVal) (c : Int)
    (hn : to_decimal_money amount = .ok c) :
    (c ≤ 0 → a.deposit amount = .error (.valueError "Депозит должен быть позитивным", a)) ∧
    (MAX_DEPOSIT < c → a.deposit amount = .error (.valueError "Депозит слишком велик", a)) ∧
    (0 < c → c ≤ MAX_DEPOSIT → a.deposit amount =
      .ok (a.balance + c, { a with
        balance := a.balance + c,
        transactions := a.transactions ++ ["+" ++ fmtMoney c ++ " " ++ a.currency] })) := by
  unfold BankAccount.deposit
  rw [hn]
  simp only [toCents_money]
  refine ⟨fun h => ?_, fun h => ?_, fun h1 h2 => ?_⟩
  · rw [if_pos h]
  · rw [if_neg (by unfold MAX_DEPOSIT at h; omega), if_pos h]
  · rw [if_neg (by omega), if_neg (by omega)]

/-- Claim C7 witness: a deposit of 10 on a blocked zero-balance account
succeeds, crediting 10.00. -/
theorem c7_deposit_witness :
    (⟨"Alice", 0, "RUB", [], true, 0⟩ : BankAccount).deposit (.pyint 10) =
      .ok (1000, ⟨"Alice", 1000, "RUB", ["+10.00 RUB"], true, 0⟩) := by
  rw [(c7_deposit_rules ⟨"Alice", 0, "RUB", [], true, 0⟩ (.pyint 10) 1000 rfl).2.2
    (by norm_num) (by decide)]
  decide

/-- Claim C10: on a blocked account the blocked check runs before any amount
validation, so `withdraw` and `transfer` fail with `PermissionError` for
every amount argument (boolean, string, zero, negative, anything) and every
target, and the error carries the untouched account states. -/
theorem c10_blocked_precedence (a : BankAccount) (hb : a.is_blocked = true) :
    (∀ amount : PyVal,
      a.withdraw amount = .error (.permissionError "Аккаунт заблокирован", a)) ∧
    (∀ (amount : PyVal) (target : Option BankAccount)
      (converter : Option CurrencyConverter),
      a.transfer target amount converter =
        .error (.permissionError "Аккаунт заблокирован", a, target)) := by
  constructor
  · intro amount
    unfold BankAccount.withdraw
    rw [hb]
    simp
  · intro amount target converter
    unfold BankAccount.transfer
    rw [hb]
    simp

/-- Claim C10 witness: a blocked account rejects `withdraw(True)` and a
transfer of the string "10" to a missing target with `PermissionError`,
leaving its state intact. -/
theorem c10_blocked_witness :
    (⟨"Alice", 10000, "RUB", [], true, 0⟩ : BankAccount).withdraw (.pybool true) =
      .error (.permissionError "Аккаунт заблокирован",
        ⟨"Alice", 10000, "RUB", [], true, 0⟩) ∧
    (⟨"Alice", 10000, "RUB", [], true, 0⟩ : BankAccount).transfer none (.pystr "10") none =
      .error (.permissionError "Аккаунт заблокирован",
        ⟨"Alice", 10000, "RUB", [], true, 0⟩, none) :=
  ⟨(c10_blocked_precedence ⟨"Alice", 10000, "RUB", [], true, 0⟩ rfl).1 (.pybool true),
   (c10_blocked_precedence ⟨"Alice", 10000, "RUB", [], true, 0⟩ rfl).2 (.pystr "10") none none⟩

/-- Claim C1: transfer is all-or-nothing.  When the sender is not blocked,
the amount normalizes to a positive `c` within the overdraft bound, and the
currency conversion fails, the whole transfer fails with that conversion
error and both accounts are exactly their pre-call states (the error carries
the states at raise time). -/
theorem c1_transfer_conversion_atomic (a t : BankAccount) (amount : PyVal)
    (converter : Option CurrencyConverter) (c : Int) (e : Err)
    (hb : a.is_blocked = false)
    (hn : to_decimal_money amount = .ok c) (hc : 0 < c)
    (hf : ¬(a.balance - c < -a.overdraft_limit))
    (hcv : (converter.getD defaultConverter).convert (.pydec ⟨c, 2⟩)
      a.currency t.currency = .error e) :
    a.transfer (some t) amount converter = .error (e, a, some t) := by
  simp only [BankAccount.transfer, hb, hn, Bool.false_eq_true, if_false,
    if_neg (show ¬ c ≤ 0 by omega), if_neg hf, hcv]

/-- Claim C1 witness: transferring 10 from a USD account to a EUR account
with the default rate table fails (no USD→EUR route) and leaves both
accounts untouched. -/
theorem c1_transfer_atomic_witness :
    (⟨"Alice", 10000, "USD", [], false, 0⟩ : BankAccount).transfer
      (some ⟨"Bob", 0, "EUR", [], false, 0⟩) (.pyint 10) none =
      .error (.valueError "Неподдерживаемая конвертация: USD->EUR",
        ⟨"Alice", 10000, "USD", [], false, 0⟩,
        some ⟨"Bob", 0, "EUR", [], false, 0⟩) :=
  c1_transfer_conversion_atomic ⟨"Alice", 10000, "USD", [], false, 0⟩
    ⟨"Bob", 0, "EUR", [], false, 0⟩ (.pyint 10) none 1000
    (.valueError "Неподдерживаемая конвертация: USD->EUR")
    rfl rfl (by norm_num) (by decide) (by decide)

/-- Claim C2: on a successful transfer the sender is debited by exactly the
normalized amount `c` in its own currency, the target is credited by exactly
the converted amount, one log line is appended on each side, and the
converted amount is returned. -/
theorem c2_transfer_success (a t : BankAccount) (amount : PyVal)
    (converter : Option CurrencyConverter) (c credited : Int)
    (hb : a.is_blocked = false)
    (hn : to_decimal_money amount = .ok c) (hc : 0 < c)
    (hf : ¬(a.balance - c < -a.overdraft_limit))
    (hcv : (converter.getD defaultConverter).convert (.pydec ⟨c, 2⟩)
      a.currency t.currency = .ok credited) :
    a.transfer (some t) amount converter =
      .ok (credited,
        { a with
          balance := a.balance - c,
          transactions := a.transactions ++
            ["Передача -" ++ fmtMoney c ++ " " ++ a.currency ++ " в " ++ t.owner] },
        { t with
          balance := t.balance + credited,
          transactions := t.transactions ++
            ["Передача +" ++ fmtMoney credited ++ " " ++ t.currency ++ " от " ++ a.owner] }) := by
  simp only [BankAccount.transfer, hb, hn, Bool.false_eq_true, if_false,
    if_neg (show ¬ c ≤ 0 by omega), if_neg hf, hcv, toCents_money]

/-- Claim C2 witness: A (100.00 RUB) transfers 10 to B (0.00 USD) at the
default rate RUB→USD = 0.01; A ends at 90.00, B at 0.10, and 0.10 is
returned. -/
theorem c2_transfer_success_witness :
    (⟨"A", 10000, "RUB", [], false, 0⟩ : BankAccount).transfer
      (some ⟨"B", 0, "USD", [], false, 0⟩) (.pyint 10) none =
      .ok (10, ⟨"A", 9000, "RUB", ["Передача -10.00 RUB в B"], false, 0⟩,
        ⟨"B", 10, "USD", ["Передача +0.10 USD от A"], false, 0⟩) := by
  rw [c2_transfer_success ⟨"A", 10000, "RUB", [], false, 0⟩
    ⟨"B", 0, "USD", [], false, 0⟩ (.pyint 10) none 1000 10
    rfl rfl (by norm_num) (by decide) (by decide)]
  decide

/-- Claim C5: for supported currency codes and a Money amount (a value
already in cents), `convert` returns the amount unchanged when the codes
coincide, fails with `ValueError` when the ordered pair is missing from the
rate table, and otherwise returns the quantized product `amount * rate`. -/
theorem c5_convert_routes (cv : CurrencyConverter) (c : Int) (f t : String)
    (hf : f ∈ SUPPORTED_CURRENCIES) (ht : t ∈ SUPPORTED_CURRENCIES) :
    (f = t → cv.convert (.pydec ⟨c, 2⟩) f t = .ok c) ∧
    (f ≠ t → List.lookup (f, t) cv.rates = none →
      cv.convert (.pydec ⟨c, 2⟩) f t =
        .error (.valueError ("Неподдерживаемая конвертация: " ++ f ++ "->" ++ t))) ∧
    (∀ r : Dec, f ≠ t → List.lookup (f, t) cv.rates = some r →
      cv.convert (.pydec ⟨c, 2⟩) f t = .ok (Dec.toCents (Dec.mul ⟨c, 2⟩ r))) := by
  refine ⟨fun h => ?_, fun h hl => ?_, fun r h hl => ?_⟩
  · simp [CurrencyConverter.convert, hf, ht, h, toCents_money]
  · simp [CurrencyConverter.convert, hf, ht, h, hl, toCents_money]
  · simp [CurrencyConverter.convert, hf, ht, h, hl, toCents_money]

/-- Claim C5 witness: converting 10.00 RUB to USD through the default table
multiplies by the stored rate 0.01 and quantizes. -/
theorem c5_convert_witness :
    defaultConverter.convert (.pydec ⟨1000, 2⟩) "RUB" "USD" =
      .ok (Dec.toCents (Dec.mul ⟨1000, 2⟩ ⟨1, 2⟩)) :=
  (c5_convert_routes defaultConverter 1000 "RUB" "USD" (by decide) (by decide)).2.2
    ⟨1, 2⟩ (by decide) (by decide)

/-- Claim C6 counterexample: `Decimal("1.005")` has three fractional digits,
so it is not a normalized Money value, yet `convert` does not fail: it
re-quantizes the amount to 1.01 and converts it, returning 0.01 USD. -/
theorem c6_convert_requantizes_cex :
    2 < (⟨1005, 3⟩ : Dec).e ∧
      defaultConverter.convert (.pydec ⟨1005, 3⟩) "RUB" "USD" = .ok 1 :=
  ⟨by norm_num, by decide⟩

/-- Claim C6 as amended: with supported currency codes, `convert` fails with
`TypeError` exactly when the amount is not a `Decimal` at all (an int, a
float, a bool, a string); a `Decimal` that is not yet quantized to two
fractional digits is defensively re-quantized, never rejected. -/
theorem c6_convert_typeerror_iff (cv : CurrencyConverter) (v : PyVal) (f t : String)
    (hf : f ∈ SUPPORTED_CURRENCIES) (ht : t ∈ SUPPORTED_CURRENCIES) :
    (∃ msg, cv.convert v f t = .error (.typeError msg)) ↔ ∀ d : Dec, v ≠ .pydec d := by
  cases v with
  | pydec d =>
    constructor
    · rintro ⟨msg, hmsg⟩
      by_cases h : f = t
      · simp [CurrencyConverter.convert, hf, ht, h] at hmsg
      · cases hl : List.lookup (f, t) cv.rates with
        | none => simp [CurrencyConverter.convert, hf, ht, h, hl] at hmsg
        | some r => simp [CurrencyConverter.convert, hf, ht, h, hl] at hmsg
    · intro hall
      exact absurd rfl (hall d)
  | pybool b => simp [CurrencyConverter.convert, hf, ht]
  | pyint n => simp [CurrencyConverter.convert, hf, ht]
  | pyfloat d => simp [CurrencyConverter.convert, hf, ht]
  | pystr s => simp [CurrencyConverter.convert, hf, ht]

/-- Claim C6 witness: the raw int 1 (not a Decimal) is rejected with
`TypeError` by the default converter. -/
theorem c6_convert_typeerror_witness :
    ∃ msg, defaultConverter.convert (.pyint 1) "USD" "RUB" = .error (.typeError msg) :=
  (c6_convert_typeerror_iff defaultConverter (.pyint 1) "USD" "RUB"
    (by decide) (by decide)).mpr (fun d => by simp)

lemma total_deposits_go_eq (conv : CurrencyConverter) (currency : String)
    (l : List (String × BankAccount)) :
    ∀ total : Int,
      total_deposits_go conv currency l total =
        (sum_converted conv currency (l.filter (fun p => !p.2.is_blocked))).map
          (fun s => total + s) := by
  induction l with
  | nil => intro total; simp [total_deposits_go, sum_converted, toCents_money, Except.map]
  | cons p rest ih =>
    intro total
    obtain ⟨n, acc⟩ := p
    by_cases hblk : acc.is_blocked
    · simp [total_deposits_go, hblk, ih]
    · cases hcv : conv.convert (.pydec ⟨acc.balance, 2⟩) acc.currency currency with
      | error e =>
        simp [total_deposits_go, sum_converted, hblk, hcv, Except.map]
      | ok v =>
        cases hs : sum_converted conv currency (rest.filter (fun p => !p.2.is_blocked)) with
        | error e =>
          simp [total_deposits_go, sum_converted, hblk, hcv, ih, hs, Except.map]
        | ok s =>
          simp [total_deposits_go, sum_converted, hblk, hcv, ih, hs, Except.map]
          omega

/-- Claim C8: `total_deposits` refines the spec-side summation: an
unsupported reporting currency fails with `ValueError`, blocked accounts are
skipped without error, and otherwise the result is the sum of the unblocked
balances converted one by one into the reporting currency (both with an
explicit converter and with the default one). -/
theorem c8_total_deposits_refines (b : Bank) (currency : String)
    (conv : CurrencyConverter) :
    b.total_deposits currency (some conv) = total_deposits_spec b currency conv ∧
      b.total_deposits currency none = total_deposits_spec b currency defaultConverter := by
  have key : ∀ cv : CurrencyConverter,
      (if currency ∈ SUPPORTED_CURRENCIES then
        total_deposits_go cv currency b.accounts 0
      else .error (.valueError "Неподдерживаемая валюта")) =
        total_deposits_spec b currency cv := by
    intro cv
    unfold total_deposits_spec
    by_cases hcur : currency ∈ SUPPORTED_CURRENCIES
    · rw [if_pos hcur, if_pos hcur, total_deposits_go_eq]
      cases sum_converted cv currency (b.accounts.filter (fun p => !p.2.is_blocked)) <;>
        simp [Except.map]
    · rw [if_neg hcur, if_neg hcur]
  exact ⟨key conv, key defaultConverter⟩

/-- Claim C9: the transaction list handed out by `get_statement` is a fresh
copy: it holds the same entries as the account's log, and writing any new
contents through the returned reference leaves the account's own log cell
unchanged. -/
theorem c9_statement_copy (h : LogStore) (r : Nat) (hr : r < h.cells.length)
    (xs : List String) :
    ((get_statement_transactions h r).1.write
        (get_statement_transactions h r).2 xs).read r = h.read r ∧
      (get_statement_transactions h r).1.read
        (get_statement_transactions h r).2 = h.read r := by
  unfold get_statement_transactions LogStore.write LogStore.read
  constructor
  · rw [List.getD_eq_getElem?_getD, List.getElem?_set_ne (by omega : h.cells.length ≠ r),
      List.getElem?_append, if_pos hr, ← List.getD_eq_getElem?_getD]
  · rw [List.getD_eq_getElem?_getD, List.getElem?_concat_length]
    rfl

/-- Claim C9 witness: with one account log `["a"]`, overwriting the copied
statement list with `["b"]` leaves the account's log equal to `["a"]`. -/
theorem c9_statement_copy_witness :
    ((get_statement_transactions ⟨[["a"]]⟩ 0).1.write
        (get_statement_transactions ⟨[["a"]]⟩ 0).2 ["b"]).read 0 =
        (⟨[["a"]]⟩ : LogStore).read 0 ∧
      (get_statement_transactions ⟨[["a"]]⟩ 0).1.read
        (get_statement_transactions ⟨[["a"]]⟩ 0).2 = (⟨[["a"]]⟩ : LogStore).read 0 :=
  c9_statement_copy ⟨[["a"]]⟩ 0 (by norm_num) ["b"]

end PR5Bank
